import Mathlib

/-!
# Verification of the tool-orchestration core of `find-house`

A shallow embedding, in Lean 4, of the orchestration core of the
`find-house` repository (the analyzer modules `universal_travel_analyzer.py`
and `intelligent_rental_analyzer.py`): the JSON-RPC tool-gateway client
(`MCPToolManager`), the LLM retry/fallback client (`_call_llm_with_retry`),
the decision parser (`_parse_tool_call_decision`, `_parse_ask_user_decision`),
the orchestration loops (`_execute_intelligent_analysis`,
`_execute_chat_analysis`) and the conversation store (`ConversationManager`).

Modelling conventions:
* Python methods become Lean functions; the `self` state they read or write
  is passed and returned explicitly.
* Exceptions are `Except.error`; a fallible network exchange is an explicit
  `HttpOutcome` value describing what the transport and the body decoder did.
* Structured JSON payloads that the core only passes around opaquely are
  flattened to string association lists; only key membership matters.
* The reasoning engine (Gemini) is an external collaborator: it is modelled
  as a stub function from the consultation index to the text it returns.
* Floating-point confidence scores are scaled to integer tenths.
-/

namespace FindHouse

/-! ### Python string primitives

The handful of `str` operations the core uses (`in`, `split`, `strip`,
`startswith`, `endswith`, `lower`) are modelled by structural recursion on
the underlying character lists, so that every concrete run of the model can
be evaluated inside a proof. -/

/-- Does the character list `l` start with `p`? -/
def charsLeading : List Char → List Char → Bool
  | _, [] => true
  | [], _ :: _ => false
  | c :: l, q :: p => c == q && charsLeading l p

/-- Does `needle` occur as a contiguous sublist of the second argument?
(Python's substring test `needle in hay`.) -/
def charsContain (needle : List Char) : List Char → Bool
  | [] => needle.isEmpty
  | c :: l => charsLeading (c :: l) needle || charsContain needle l

/-- Python `needle in hay`. -/
def strContains (hay needle : String) : Bool :=
  charsContain needle.data hay.data

/-- Python `s.startswith(p)`. -/
def strStartsWith (s p : String) : Bool :=
  charsLeading s.data p.data

/-- Python `s.endswith(p)`. -/
def strEndsWith (s p : String) : Bool :=
  charsLeading s.data.reverse p.data.reverse

/-- The whitespace stripped by Python `str.strip()`. -/
def isPySpace (c : Char) : Bool :=
  c == ' ' || c == '\t' || c == '\n' || c == '\r' ||
    c == Char.ofNat 11 || c == Char.ofNat 12

/-- Python `s.strip()`. -/
def strTrim (s : String) : String :=
  ⟨((s.data.dropWhile isPySpace).reverse.dropWhile isPySpace).reverse⟩

/-- Python `s.split(sep)` for a one-character separator, on character
lists: always returns at least one (possibly empty) piece. -/
def splitOnChar (sep : Char) : List Char → List (List Char)
  | [] => [[]]
  | c :: l =>
    let r := splitOnChar sep l
    if c == sep then [] :: r
    else
      match r with
      | [] => [[c]]
      | h :: t => (c :: h) :: t

/-- Python `s.split('\n')`. -/
def splitLines (s : String) : List String :=
  (splitOnChar '\n' s.data).map (fun l => ⟨l⟩)

/-- Everything after the first `sep` in the list (`[]` when `sep` is
absent). -/
def charsAfterFirst (sep : Char) : List Char → List Char
  | [] => []
  | c :: l => if c == sep then l else charsAfterFirst sep l

/-- Python `line.split(':', 1)[1]`: everything after the first `:`. In the
source this is only evaluated on lines that start with a label containing
`:`, so the colon always exists; with no colon we return `""`. -/
def afterFirstColon (s : String) : String :=
  ⟨charsAfterFirst ':' s.data⟩

/-- Python `s.lower()` (the error texts tested are ASCII). -/
def strLower (s : String) : String :=
  ⟨s.data.map Char.toLower⟩

/-- A structured JSON-RPC tool result, flattened to a string association
list; the orchestration core only ever tests key membership (`"error" in
result`) and passes the payload through opaquely. -/
abbrev ToolResult := List (String × String)

/-- Python `k in result` on a dict. -/
def hasKey (r : ToolResult) (k : String) : Bool :=
  r.any (fun p => p.1 == k)

/-! ## `MCPToolManager` — the tool-gateway client

Identical in `universal_travel_analyzer.py` (lines 31–146) and
`intelligent_rental_analyzer.py` (lines 27–142) up to the client name string.
-/

/-- `MCPToolManager.__init__` sets `self.request_id = 0`. -/
def initialRequestId : Nat := 0

/-- `MCPToolManager._next_id`: increments `request_id` and returns it.
The pair is (returned id, new `request_id` state). -/
def next_id (requestId : Nat) : Nat × Nat :=
  (requestId + 1, requestId + 1)

/-- The correlation ids carried by a sequence of `n` outbound requests
(`initialize`, `tools/list`, `tools/call` all draw from `_next_id`),
starting from `request_id` state `st`. -/
def idSeq : Nat → Nat → List Nat
  | 0, _ => []
  | n + 1, st => (next_id st).1 :: idSeq n (next_id st).2

/-- Outcome of one HTTP POST exchange as seen by the client: either the
transport raised an exception, or a status code arrived together with a body;
`body = none` models a body that `response.json()` cannot decode. -/
inductive HttpOutcome (β : Type) where
  | transportError (msg : String)
  | response (status : Nat) (body : Option β)

/-- `MCPToolManager.call_tool`: on a non-200 status it returns the
`{"error": ...}` sentinel dict; on 200 it returns the decoded body; a
transport exception or an undecodable 200 body propagates (`Except.error`),
since the method installs no exception handler. -/
def call_tool (tool_name : String) (out : HttpOutcome ToolResult) :
    Except String ToolResult :=
  match out with
  | .transportError msg => .error msg
  | .response status body =>
    if status != 200 then
      .ok [("error", "Failed to call tool " ++ tool_name)]
    else
      match body with
      | some r => .ok r
      | none => .error "response body is not valid JSON"

/-- Decoded body of a `tools/list` response; `tools? = none` models a JSON
body lacking `result` or `result.tools`. Tools are identified by name. -/
structure ToolsListBody where
  tools? : Option (List String)

/-- `MCPToolManager.load_available_tools`: the catalog is populated only from
a 200 response whose body carries `result.tools`; a non-200 status, or a
decodable body without `result.tools`, leaves the catalog empty without
raising; a transport exception or an undecodable 200 body propagates, since
the method installs no exception handler. -/
def load_available_tools (out : HttpOutcome ToolsListBody) :
    Except String (List String) :=
  match out with
  | .transportError msg => .error msg
  | .response status body =>
    if status == 200 then
      match body with
      | none => .error "response body is not valid JSON"
      | some b =>
        match b.tools? with
        | some tools => .ok tools
        | none => .ok []
    else .ok []

/-! ## `DecisionParser` — `_parse_tool_call_decision` / `_parse_ask_user_decision`

`universal_travel_analyzer.py` lines 533–568 and 1240–1268. `json.loads`
and `ast.literal_eval` are external library functions; they are modelled as
abstract decoders (`jl`, `lp`) returning `none` exactly when the Python
function would raise. -/

/-- A `CallTool` argument mapping. A decoded JSON object is flattened to a
string association list (the loop passes it through opaquely). -/
abbrev ArgMap := List (String × String)

/-- Parsed fields of a `CALL_TOOL` decision. -/
structure ToolCallInfo where
  tool_name : String
  arguments : ArgMap
  reason : String
  deriving Repr, DecidableEq

/-- Accumulator for the line scan of `_parse_tool_call_decision`. -/
structure ParseAcc where
  tool_name : Option String
  arguments : ArgMap
  reason : String
  deriving Repr, DecidableEq

/-- The `参数:` value decoding of `_parse_tool_call_decision`: if the value
looks like a JSON object (starts with `{` and ends with `}`) it is given to
`json.loads` (`jl`); on decode failure, or if it does not look structured,
the raw text is wrapped as `{"query": raw}`. -/
def parseParamValue (jl : String → Option ArgMap) (param_str : String) : ArgMap :=
  if strStartsWith param_str "\x7b" && strEndsWith param_str "\x7d" then
    match jl param_str with
    | some m => m
    | none => [("query", param_str)]
  else [("query", param_str)]

/-- One line of the scan in `_parse_tool_call_decision`: the stripped line
contributes to the field whose label prefixes it, later lines overwriting
earlier ones. -/
def parseDecisionLine (jl : String → Option ArgMap) (acc : ParseAcc)
    (rawLine : String) : ParseAcc :=
  let line := strTrim rawLine
  if strStartsWith line "工具名称:" then
    { acc with tool_name := some (strTrim (afterFirstColon line)) }
  else if strStartsWith line "参数:" then
    { acc with arguments := parseParamValue jl (strTrim (afterFirstColon line)) }
  else if strStartsWith line "原因:" then
    { acc with reason := strTrim (afterFirstColon line) }
  else acc

/-- `UniversalTravelAnalyzer._parse_tool_call_decision`: scans the lines of
the decision text for the labels `工具名称:`, `参数:`, `原因:`; returns
`none` (Python `None`) when no non-empty tool name was found (`if tool_name:`
is false for both `None` and `""`). The whole body is wrapped in
`try/except`, so the Python function never raises; the Lean model is total. -/
def parse_tool_call_decision (jl : String → Option ArgMap)
    (decision_text : String) : Option ToolCallInfo :=
  let acc := (splitLines decision_text).foldl (parseDecisionLine jl)
    ⟨none, [], ""⟩
  match acc.tool_name with
  | some n =>
    if n.data.isEmpty then none else some ⟨n, acc.arguments, acc.reason⟩
  | none => none

/-- Accumulator for the line scan of `_parse_ask_user_decision`. -/
structure AskAcc where
  question : String
  suggestions : List String
  deriving Repr, DecidableEq

/-- One line of the scan in `_parse_ask_user_decision`: `问题:` sets the
question; `建议:` sets the suggestions from `ast.literal_eval` (`lp`) when
the value is bracketed, and resets them to `[]` when the evaluation fails. -/
def parseAskLine (lp : String → Option (List String)) (acc : AskAcc)
    (rawLine : String) : AskAcc :=
  let line := strTrim rawLine
  if strStartsWith line "问题:" then
    { acc with question := strTrim (afterFirstColon line) }
  else if strStartsWith line "建议:" then
    let s := strTrim (afterFirstColon line)
    if strStartsWith s "[" && strEndsWith s "]" then
      match lp s with
      | some l => { acc with suggestions := l }
      | none => { acc with suggestions := [] }
    else acc
  else acc

/-- `UniversalTravelAnalyzer._parse_ask_user_decision`: extracts the `问题:`
and `建议:` fields, substituting a default question when none was found. -/
def parse_ask_user_decision (lp : String → Option (List String))
    (decision_text : String) : String × List String :=
  let acc := (splitLines decision_text).foldl (parseAskLine lp) ⟨"", []⟩
  if acc.question.data.isEmpty then
    ("请提供更多详细信息以便我为您提供更精确的分析。", acc.suggestions)
  else (acc.question, acc.suggestions)

/-! ## `_call_llm_with_retry` — the resilient reasoning-engine client

`universal_travel_analyzer.py` lines 294–331, together with
`_switch_to_next_model` (lines 226–232) and the `__init__` defaults
(lines 209–218). -/

/-- `UniversalTravelAnalyzer.__init__`: the ordered backend list. -/
def defaultModels : List String := ["gemini-2.5-flash", "gemini-2.0-flash"]

/-- `UniversalTravelAnalyzer.__init__`: `self.retry_delay = 1`. -/
def defaultRetryDelay : Nat := 1

/-- `UniversalTravelAnalyzer.__init__`: `self.max_retries = 3`. -/
def defaultMaxRetries : Nat := 3

/-- What one `generate_content` attempt did: returned text, or raised with
the given message. -/
inductive LlmOutcome where
  | success (text : String)
  | failure (error_msg : String)

/-- The quota test of line 309: `"429" in error_msg or "quota" in
error_msg.lower()`. -/
def isQuotaError (error_msg : String) : Bool :=
  strContains error_msg "429" || strContains (strLower error_msg) "quota"

/-- `UniversalTravelAnalyzer._switch_to_next_model`: advances
`current_model_index` when a further backend exists; `none` models the
`False` return (no switch happened). -/
def switch_to_next_model (models : List String) (idx : Nat) : Option Nat :=
  if idx < models.length - 1 then some (idx + 1) else none

/-- Observable side effects of the retry loop, in order. -/
inductive RetryEvent where
  | switchModel (newIndex : Nat)
  | sleep (seconds : Nat)
  | resetToFirst
  deriving Repr, DecidableEq

/-- The `for attempt in range(max_retries)` loop of `_call_llm_with_retry`.
`stub attempt` is what `self.model.generate_content` did on that 0-indexed
attempt; `fuel` is the number of attempts left (`max_retries - attempt` at
entry); the result is the returned text or the final exception, the final
`current_model_index`, and the ordered side-effect trace. -/
def callLlmLoop (models : List String) (retry_delay max_retries : Nat)
    (stub : Nat → LlmOutcome) :
    Nat → Nat → Nat → Except String String × Nat × List RetryEvent
  | 0, _, idx => (.error ("LLM调用失败，已重试 " ++ toString max_retries ++ " 次"), idx, [])
  | fuel + 1, attempt, idx =>
    match stub attempt with
    | .success text => (.ok text, idx, [])
    | .failure error_msg =>
      if isQuotaError error_msg then
        match switch_to_next_model models idx with
        | some idx' =>
          let r := callLlmLoop models retry_delay max_retries stub fuel (attempt + 1) idx'
          (r.1, r.2.1, .switchModel idx' :: r.2.2)
        | none =>
          if attempt < max_retries - 1 then
            let r := callLlmLoop models retry_delay max_retries stub fuel (attempt + 1) 0
            (r.1, r.2.1, .sleep (retry_delay * 2 ^ attempt) :: .resetToFirst :: r.2.2)
          else
            callLlmLoop models retry_delay max_retries stub fuel (attempt + 1) idx
      else
        if attempt < max_retries - 1 then
          let r := callLlmLoop models retry_delay max_retries stub fuel (attempt + 1) idx
          (r.1, r.2.1, .sleep (retry_delay * 2 ^ attempt) :: r.2.2)
        else
          callLlmLoop models retry_delay max_retries stub fuel (attempt + 1) idx

/-- `UniversalTravelAnalyzer._call_llm_with_retry`: runs the attempt loop
starting from the caller's sticky `current_model_index` `idx0`; when every
attempt fails the trailing `raise Exception(...)` propagates. -/
def call_llm_with_retry (models : List String) (retry_delay max_retries : Nat)
    (stub : Nat → LlmOutcome) (idx0 : Nat) :
    Except String String × Nat × List RetryEvent :=
  callLlmLoop models retry_delay max_retries stub max_retries 0 idx0

/-! ## The orchestration loops

`UniversalTravelAnalyzer._execute_intelligent_analysis` (lines 393–531) and
`._execute_chat_analysis` (lines 1095–1238). The prompts built each
iteration are opaque to the control flow, so the reasoning engine is a stub
`llm : Nat → Except String String` from the 1-based consultation index to
the decision text it returned (or the exception `_call_llm_with_retry`
raised); the tool gateway is a stub
`toolCall : Nat → String → ArgMap → Except String ToolResult` (iteration,
tool name, arguments); `genFinal` is `_generate_final_response`, which
handles its own exceptions internally and always returns a string. -/

/-- One entry of `analysis_results["tool_calls"]`. -/
structure ToolCallRecord where
  iteration : Nat
  tool_name : String
  arguments : ArgMap
  result : ToolResult
  reason : String
  success : Bool
  deriving Repr, DecidableEq

/-- The mutable `analysis_results` state threaded through one orchestration
run. The opaque input fields (`intent_analysis`, `context`, `preferences`,
`constraints`, `analysis_steps`) are only interpolated into prompt text and
are omitted; `collected_data` is the dict `data-type → list of raw results`,
`final_response` is absent until a terminal decision sets it. -/
structure AnalysisState where
  query : String
  tool_calls : List ToolCallRecord
  collected_data : List (String × List ToolResult)
  final_response : Option String
  deriving Repr, DecidableEq

/-- The fresh `analysis_results` built at the top of an analysis run. -/
def initialAnalysisState (query : String) : AnalysisState :=
  ⟨query, [], [], none⟩

/-- `UniversalTravelAnalyzer._get_data_type_from_tool`: substring dispatch
on the tool name. -/
def get_data_type_from_tool (tool_name : String) : String :=
  if strContains tool_name "geo" then "coordinates"
  else if strContains tool_name "direction" then "routes"
  else if strContains tool_name "around_search" then "nearby_pois"
  else if strContains tool_name "text_search" then "search_results"
  else "other_data"

/-- Append `r` to the list stored under `k`, creating the entry when the key
is absent — the dict update of `_update_collected_data`. -/
def appendAt (cd : List (String × List ToolResult)) (k : String)
    (r : ToolResult) : List (String × List ToolResult) :=
  if cd.any (fun p => p.1 == k) then
    cd.map (fun p => if p.1 == k then (p.1, p.2 ++ [r]) else p)
  else cd ++ [(k, [r])]

/-- `UniversalTravelAnalyzer._update_collected_data`: a result carrying an
`"error"` key is dropped; otherwise it is appended under the data type
derived from the tool name. -/
def update_collected_data (st : AnalysisState) (tool_name : String)
    (result : ToolResult) : AnalysisState :=
  if hasKey result "error" then st
  else
    { st with collected_data :=
        appendAt st.collected_data (get_data_type_from_tool tool_name) result }

/-- The state update shared by both loops when a `CALL_TOOL` decision parsed
and the tool call returned: append the `ToolCallRecord`
(`success = "error" not in result`) and fold the result into
`collected_data`. -/
def recordToolCall (st : AnalysisState) (iteration : Nat) (ti : ToolCallInfo)
    (result : ToolResult) : AnalysisState :=
  let st' := { st with tool_calls := st.tool_calls ++
    [⟨iteration, ti.tool_name, ti.arguments, result, ti.reason,
      !hasKey result "error"⟩] }
  update_collected_data st' ti.tool_name result

/-- The `while iteration < max_iterations` loop of
`_execute_intelligent_analysis` (single-shot mode), instrumented with the
number of reasoning-engine consultations performed. Dispatch order on the
decision text: `CALL_TOOL` (continue), `GENERATE_FINAL_RESPONSE` (set
`final_response`, break), `NEED_MORE_INFO` (forced generation: set
`final_response`, break), anything else (break with no response); an
exception from the consultation or the tool call is caught and breaks the
loop. -/
def execIntelligentLoop (llm : Nat → Except String String)
    (jl : String → Option ArgMap)
    (toolCall : Nat → String → ArgMap → Except String ToolResult)
    (genFinal : AnalysisState → String) :
    Nat → Nat → AnalysisState → AnalysisState × Nat
  | 0, _, st => (st, 0)
  | fuel + 1, iteration, st =>
    let iter := iteration + 1
    match llm iter with
    | .error _ => (st, 1)
    | .ok decision_text =>
      if strContains decision_text "CALL_TOOL" then
        match parse_tool_call_decision jl decision_text with
        | some ti =>
          match toolCall iter ti.tool_name ti.arguments with
          | .error _ => (st, 1)
          | .ok result =>
            let r := execIntelligentLoop llm jl toolCall genFinal fuel iter
              (recordToolCall st iter ti result)
            (r.1, r.2 + 1)
        | none =>
          let r := execIntelligentLoop llm jl toolCall genFinal fuel iter st
          (r.1, r.2 + 1)
      else if strContains decision_text "GENERATE_FINAL_RESPONSE" then
        ({ st with final_response := some (genFinal st) }, 1)
      else if strContains decision_text "NEED_MORE_INFO" then
        ({ st with final_response := some (genFinal st) }, 1)
      else (st, 1)

/-- `max_iterations = 15` in `_execute_intelligent_analysis` (line 430). -/
def intelligentMaxIterations : Nat := 15

/-- `UniversalTravelAnalyzer._execute_intelligent_analysis`: runs the loop
from a fresh state and returns `analysis_results` as left by the loop —
there is no post-loop step, so an exhausted iteration bound leaves
`final_response` absent. The second component counts reasoning-engine
consultations. -/
def execute_intelligent_analysis (llm : Nat → Except String String)
    (jl : String → Option ArgMap)
    (toolCall : Nat → String → ArgMap → Except String ToolResult)
    (genFinal : AnalysisState → String) (query : String) :
    AnalysisState × Nat :=
  execIntelligentLoop llm jl toolCall genFinal intelligentMaxIterations 0
    (initialAnalysisState query)

/-- The dict returned by `_execute_chat_analysis`; the float confidences
0.8 / 0.6 / 0.7 are scaled to integer tenths. -/
structure ChatAnalysisResult where
  response : String
  message_type : String
  requires_action : Bool
  tools_used : List String
  suggestions : List String
  confidence_tenths : Nat
  deriving Repr, DecidableEq

/-- The `while iteration < max_iterations` loop of `_execute_chat_analysis`
(chat mode): `CALL_TOOL` continues; `GENERATE_RESPONSE` and `ASK_USER`
return a result from inside the loop; anything else, or a caught exception,
breaks with no result (`none`), which the caller turns into a forced
generation. Also instrumented with the consultation count. -/
def execChatLoop (llm : Nat → Except String String)
    (jl : String → Option ArgMap) (lp : String → Option (List String))
    (toolCall : Nat → String → ArgMap → Except String ToolResult)
    (genFinal : AnalysisState → String) :
    Nat → Nat → AnalysisState → Option ChatAnalysisResult × AnalysisState × Nat
  | 0, _, st => (none, st, 0)
  | fuel + 1, iteration, st =>
    let iter := iteration + 1
    match llm iter with
    | .error _ => (none, st, 1)
    | .ok decision_text =>
      if strContains decision_text "CALL_TOOL" then
        match parse_tool_call_decision jl decision_text with
        | some ti =>
          match toolCall iter ti.tool_name ti.arguments with
          | .error _ => (none, st, 1)
          | .ok result =>
            let r := execChatLoop llm jl lp toolCall genFinal fuel iter
              (recordToolCall st iter ti result)
            (r.1, r.2.1, r.2.2 + 1)
        | none =>
          let r := execChatLoop llm jl lp toolCall genFinal fuel iter st
          (r.1, r.2.1, r.2.2 + 1)
      else if strContains decision_text "GENERATE_RESPONSE" then
        (some ⟨genFinal st, "analysis", true,
          st.tool_calls.map (·.tool_name), [], 8⟩, st, 1)
      else if strContains decision_text "ASK_USER" then
        let qs := parse_ask_user_decision lp decision_text
        (some ⟨qs.1, "question", false, [], qs.2, 6⟩, st, 1)
      else (none, st, 1)

/-- `max_iterations = 10` in `_execute_chat_analysis` (line 1110). -/
def chatMaxIterations : Nat := 10

/-- `UniversalTravelAnalyzer._execute_chat_analysis`: runs the chat loop
from a fresh state; when the loop ends without returning (iteration bound
exhausted, unparseable decision, or caught exception) the post-loop code of
lines 1230–1238 forces a response generated from the collected data. -/
def execute_chat_analysis (llm : Nat → Except String String)
    (jl : String → Option ArgMap) (lp : String → Option (List String))
    (toolCall : Nat → String → ArgMap → Except String ToolResult)
    (genFinal : AnalysisState → String) (query : String) :
    ChatAnalysisResult × Nat :=
  let r := execChatLoop llm jl lp toolCall genFinal chatMaxIterations 0
    (initialAnalysisState query)
  match r.1 with
  | some res => (res, r.2.2)
  | none =>
    (⟨genFinal r.2.1, "analysis", true, r.2.1.tool_calls.map (·.tool_name),
      [], 7⟩, r.2.2)

/-! ## `ConversationManager` — the conversation store

`universal_travel_analyzer.py` lines 148–202. `str(uuid.uuid4())` and
`datetime.now().isoformat()` are external effects, passed in as the
parameters `freshId` and `now`. The Python dict of conversations is an
association list with unique keys (lookup takes the first match). -/

/-- One entry of a conversation's `messages` list. -/
structure Message where
  role : String
  content : String
  timestamp : String
  metadata : List (String × String)
  deriving Repr, DecidableEq

/-- One conversation record. -/
structure Conversation where
  id : String
  created_at : String
  messages : List Message
  deriving Repr, DecidableEq

/-- `self.conversations`: conversation id → conversation data. -/
abbrev ConvStore := List (String × Conversation)

/-- Python `conversation_id in self.conversations` / dict lookup. -/
def lookupConv (store : ConvStore) (cid : String) : Option Conversation :=
  (store.find? (fun p => p.1 == cid)).map (·.2)

/-- `ConversationManager.create_conversation`: registers an empty
conversation under the freshly generated uuid and returns that id. -/
def create_conversation (store : ConvStore) (freshId now : String) :
    ConvStore × String :=
  (store ++ [(freshId, ⟨freshId, now, []⟩)], freshId)

/-- Append a message to the conversation stored under `cid` (the
`self.conversations[conversation_id]["messages"].append(...)` update). -/
def appendMessage (store : ConvStore) (cid : String) (m : Message) : ConvStore :=
  store.map (fun p => if p.1 == cid then
    (p.1, { p.2 with messages := p.2.messages ++ [m] }) else p)

/-- `ConversationManager.add_message`: when the given id is unknown, a *new*
conversation is created under a fresh uuid and the message goes there (the
given id is discarded); the timestamped message is appended to the session
actually selected, whose id is returned. The function never raises. -/
def add_message (store : ConvStore) (freshId now : String)
    (conversation_id role content : String)
    (metadata : List (String × String)) : ConvStore × String :=
  let m : Message := ⟨role, content, now, metadata⟩
  match lookupConv store conversation_id with
  | some _ => (appendMessage store conversation_id m, conversation_id)
  | none =>
    let r := create_conversation store freshId now
    (appendMessage r.1 r.2 m, r.2)

/-! ## Invariant predicates -/

/-- Every element of every list stored in `collected_data` is a tool result
with no `"error"` key. -/
def collectedErrorFree (st : AnalysisState) : Bool :=
  st.collected_data.all fun p => p.2.all fun r => !hasKey r "error"

/-- Every `ToolCallRecord` carries `success = ("error" not in result)`, so a
failed tool call is recorded in `tool_calls` with `success = false`. -/
def successConsistent (st : AnalysisState) : Bool :=
  st.tool_calls.all fun c => c.success == !hasKey c.result "error"

/-! ### Lemmas about correlation ids -/

theorem idSeq_length (n st : Nat) : (idSeq n st).length = n := by
  induction n generalizing st with
  | zero => rfl
  | succ k ih => simp [idSeq, ih]

theorem idSeq_get (n st k : Nat) (h : k < n) :
    (idSeq n st).get ⟨k, by rw [idSeq_length]; exact h⟩ = st + k + 1 := by
  induction n generalizing st k with
  | zero => omega
  | succ m ih =>
    cases k with
    | zero => simp [idSeq, next_id]
    | succ j =>
      have hj : j < m := by omega
      simpa [idSeq, next_id, Nat.add_assoc, Nat.add_comm, Nat.add_left_comm]
        using ih (st + 1) j hj

theorem idSeq_eq_range' (n st : Nat) : idSeq n st = List.range' (st + 1) n := by
  induction n generalizing st with
  | zero => rfl
  | succ m ih =>
    rw [List.range'_succ]
    simp [idSeq, next_id, ih]

/-- C8: within one `MCPToolManager` lifetime, the correlation ids carried by
any sequence of `N` outbound requests (drawn from `_next_id`, starting from
the `request_id = 0` of `__init__`) are pairwise strictly increasing in call
order — so the id of request `k` is strictly greater than that of request
`k-1` — and no id is ever reused. -/
theorem C8_request_ids_strictly_increasing (N : Nat) :
    (idSeq N initialRequestId).Pairwise (· < ·) ∧
      (idSeq N initialRequestId).Nodup := by
  rw [idSeq_eq_range']
  exact ⟨List.pairwise_lt_range' _ _, List.nodup_range' _ _⟩

/-- C3 counterexample: a transport-level exception during `tools/call` is not
converted into an `{"error": ...}` sentinel — `call_tool` has no exception
handler, so the exception propagates, contradicting the claim that it never
raises on any transport exception. -/
theorem C3_counterexample :
    call_tool "maps_geo" (HttpOutcome.transportError "connection reset") =
      Except.error "connection reset" := rfl

/-- C3 (amended): `call_tool` returns the decoded structured response on an
HTTP 200 with a decodable body and returns the explicit `{"error": ...}`
sentinel — without raising — on any non-success HTTP status; but a transport
exception (or an undecodable 200 body) propagates as an exception rather than
a sentinel. -/
theorem C3_call_tool_sentinel (tool_name msg : String) (status : Nat)
    (body : Option ToolResult) (r : ToolResult) :
    (status ≠ 200 →
      call_tool tool_name (HttpOutcome.response status body) =
        Except.ok [("error", "Failed to call tool " ++ tool_name)]) ∧
    (call_tool tool_name (HttpOutcome.response 200 (some r)) = Except.ok r) ∧
    (call_tool tool_name (HttpOutcome.transportError msg) = Except.error msg) := by
  refine ⟨fun h => ?_, rfl, rfl⟩
  simp [call_tool, if_pos, h]

/-- C3 witness: the sentinel branch evaluated on an HTTP 500. -/
theorem C3_call_tool_sentinel_witness :
    call_tool "maps_geo" (HttpOutcome.response 500 none) =
      Except.ok [("error", "Failed to call tool maps_geo")] :=
  (C3_call_tool_sentinel "maps_geo" "m" 500 none []).1 (by decide)

/-- C5 counterexample: a transport-level exception during `tools/list`
propagates out of `load_available_tools` (it has no exception handler),
contradicting the claim that every failure outcome leaves the catalog empty
without raising. -/
theorem C5_counterexample :
    load_available_tools (HttpOutcome.transportError "timeout") =
      Except.error "timeout" := rfl

/-- C5 (amended): a non-success HTTP status on `tools/list`, or a decodable
200 body lacking `result.tools`, leaves the tool catalog empty without
raising; a 200 body with `result.tools` populates the catalog; but a
transport exception or an undecodable 200 body propagates as an exception. -/
theorem C5_load_tools_catalog (status : Nat) (msg : String)
    (body : Option ToolsListBody) (tools : List String) :
    (status ≠ 200 →
      load_available_tools (HttpOutcome.response status body) = Except.ok []) ∧
    (load_available_tools (HttpOutcome.response 200 (some ⟨none⟩)) =
      Except.ok []) ∧
    (load_available_tools (HttpOutcome.response 200 (some ⟨some tools⟩)) =
      Except.ok tools) ∧
    (load_available_tools (HttpOutcome.transportError msg) = Except.error msg) ∧
    (load_available_tools (HttpOutcome.response 200 none) ≠ Except.ok []) := by
  refine ⟨fun h => ?_, rfl, rfl, rfl, by simp [load_available_tools]⟩
  simp [load_available_tools, h]

/-- C5 witness: the empty-catalog branch evaluated on an HTTP 503. -/
theorem C5_load_tools_catalog_witness :
    load_available_tools (HttpOutcome.response 503 none) = Except.ok [] :=
  (C5_load_tools_catalog 503 "m" none []).1 (by decide)

/-! ### Structural lemmas about the state updates -/

@[simp] theorem update_collected_data_tool_calls (st : AnalysisState)
    (tn : String) (r : ToolResult) :
    (update_collected_data st tn r).tool_calls = st.tool_calls := by
  unfold update_collected_data; split <;> rfl

@[simp] theorem update_collected_data_final_response (st : AnalysisState)
    (tn : String) (r : ToolResult) :
    (update_collected_data st tn r).final_response = st.final_response := by
  unfold update_collected_data; split <;> rfl

@[simp] theorem recordToolCall_tool_calls (st : AnalysisState) (iter : Nat)
    (ti : ToolCallInfo) (result : ToolResult) :
    (recordToolCall st iter ti result).tool_calls = st.tool_calls ++
      [⟨iter, ti.tool_name, ti.arguments, result, ti.reason,
        !hasKey result "error"⟩] := by
  unfold recordToolCall
  rw [update_collected_data_tool_calls]

@[simp] theorem recordToolCall_final_response (st : AnalysisState) (iter : Nat)
    (ti : ToolCallInfo) (result : ToolResult) :
    (recordToolCall st iter ti result).final_response = st.final_response := by
  unfold recordToolCall
  rw [update_collected_data_final_response]

/-- One unfolding of the single-shot loop. -/
theorem execIntelligentLoop_succ (llm : Nat → Except String String)
    (jl : String → Option ArgMap)
    (toolCall : Nat → String → ArgMap → Except String ToolResult)
    (genFinal : AnalysisState → String) (fuel iteration : Nat)
    (st : AnalysisState) :
    execIntelligentLoop llm jl toolCall genFinal (fuel + 1) iteration st =
      match llm (iteration + 1) with
      | .error _ => (st, 1)
      | .ok decision_text =>
        if strContains decision_text "CALL_TOOL" then
          match parse_tool_call_decision jl decision_text with
          | some ti =>
            match toolCall (iteration + 1) ti.tool_name ti.arguments with
            | .error _ => (st, 1)
            | .ok result =>
              let r := execIntelligentLoop llm jl toolCall genFinal fuel
                (iteration + 1) (recordToolCall st (iteration + 1) ti result)
              (r.1, r.2 + 1)
          | none =>
            let r := execIntelligentLoop llm jl toolCall genFinal fuel
              (iteration + 1) st
            (r.1, r.2 + 1)
        else if strContains decision_text "GENERATE_FINAL_RESPONSE" then
          ({ st with final_response := some (genFinal st) }, 1)
        else if strContains decision_text "NEED_MORE_INFO" then
          ({ st with final_response := some (genFinal st) }, 1)
        else (st, 1) := rfl

/-- One unfolding of the chat loop. -/
theorem execChatLoop_succ (llm : Nat → Except String String)
    (jl : String → Option ArgMap) (lp : String → Option (List String))
    (toolCall : Nat → String → ArgMap → Except String ToolResult)
    (genFinal : AnalysisState → String) (fuel iteration : Nat)
    (st : AnalysisState) :
    execChatLoop llm jl lp toolCall genFinal (fuel + 1) iteration st =
      match llm (iteration + 1) with
      | .error _ => (none, st, 1)
      | .ok decision_text =>
        if strContains decision_text "CALL_TOOL" then
          match parse_tool_call_decision jl decision_text with
          | some ti =>
            match toolCall (iteration + 1) ti.tool_name ti.arguments with
            | .error _ => (none, st, 1)
            | .ok result =>
              let r := execChatLoop llm jl lp toolCall genFinal fuel
                (iteration + 1) (recordToolCall st (iteration + 1) ti result)
              (r.1, r.2.1, r.2.2 + 1)
          | none =>
            let r := execChatLoop llm jl lp toolCall genFinal fuel
              (iteration + 1) st
            (r.1, r.2.1, r.2.2 + 1)
        else if strContains decision_text "GENERATE_RESPONSE" then
          (some ⟨genFinal st, "analysis", true,
            st.tool_calls.map (·.tool_name), [], 8⟩, st, 1)
        else if strContains decision_text "ASK_USER" then
          let qs := parse_ask_user_decision lp decision_text
          (some ⟨qs.1, "question", false, [], qs.2, 6⟩, st, 1)
        else (none, st, 1) := rfl

/-! ### C6 — permissive argument decoding -/

/-- C6: parsing `"CALL_TOOL\n工具名称: foo\n参数: not-json\n原因: x"`
yields `tool_name = "foo"`, `arguments = {"query": "not-json"}`,
`reason = "x"` — for every JSON decoder, since the value is never given to
it — and whenever the `参数:` value does not both start with `{` and end
with `}`, or its JSON decoding fails, the raw text is wrapped as the single
fallback argument `{"query": raw}`; the parser is a total function, so it
never raises. -/
theorem C6_permissive_argument_decoding (jl : String → Option ArgMap)
    (s : String)
    (h : (strStartsWith s "\x7b" && strEndsWith s "\x7d") = false ∨
      jl s = none) :
    parse_tool_call_decision jl
        "CALL_TOOL\n工具名称: foo\n参数: not-json\n原因: x" =
      some ⟨"foo", [("query", "not-json")], "x"⟩ ∧
    parseParamValue jl s = [("query", s)] := by
  refine ⟨rfl, ?_⟩
  rcases h with h | h
  · simp [parseParamValue, h]
  · unfold parseParamValue
    split
    · rw [h]
    · rfl

/-- C6 witness: the theorem applied at the decoder that always fails and the
claim's own `参数:` value. -/
theorem C6_permissive_argument_decoding_witness :
    parse_tool_call_decision (fun _ => none)
        "CALL_TOOL\n工具名称: foo\n参数: not-json\n原因: x" =
      some ⟨"foo", [("query", "not-json")], "x"⟩ ∧
    parseParamValue (fun _ => none) "not-json" = [("query", "not-json")] :=
  C6_permissive_argument_decoding (fun _ => none) "not-json" (Or.inl rfl)

/-! ### C7 — missing tool name degrades the decision -/

/-! #### Conditional one-step unfoldings of the single-shot loop -/

theorem intelligentStep_llm_error {llm : Nat → Except String String}
    {jl : String → Option ArgMap}
    {toolCall : Nat → String → ArgMap → Except String ToolResult}
    {genFinal : AnalysisState → String} {fuel iteration : Nat}
    {st : AnalysisState} {e : String}
    (hllm : llm (iteration + 1) = .error e) :
    execIntelligentLoop llm jl toolCall genFinal (fuel + 1) iteration st =
      (st, 1) := by
  rw [execIntelligentLoop_succ, hllm]

theorem intelligentStep_tool_ok {llm : Nat → Except String String}
    {jl : String → Option ArgMap}
    {toolCall : Nat → String → ArgMap → Except String ToolResult}
    {genFinal : AnalysisState → String} {fuel iteration : Nat}
    {st : AnalysisState} {d : String} {ti : ToolCallInfo}
    {result : ToolResult}
    (hllm : llm (iteration + 1) = .ok d)
    (hd : strContains d "CALL_TOOL" = true)
    (hp : parse_tool_call_decision jl d = some ti)
    (htc : toolCall (iteration + 1) ti.tool_name ti.arguments = .ok result) :
    execIntelligentLoop llm jl toolCall genFinal (fuel + 1) iteration st =
      ((execIntelligentLoop llm jl toolCall genFinal fuel (iteration + 1)
          (recordToolCall st (iteration + 1) ti result)).1,
       (execIntelligentLoop llm jl toolCall genFinal fuel (iteration + 1)
          (recordToolCall st (iteration + 1) ti result)).2 + 1) := by
  rw [execIntelligentLoop_succ, hllm]
  simp only [hd, if_true, hp, htc]

theorem intelligentStep_tool_error {llm : Nat → Except String String}
    {jl : String → Option ArgMap}
    {toolCall : Nat → String → ArgMap → Except String ToolResult}
    {genFinal : AnalysisState → String} {fuel iteration : Nat}
    {st : AnalysisState} {d : String} {ti : ToolCallInfo} {e : String}
    (hllm : llm (iteration + 1) = .ok d)
    (hd : strContains d "CALL_TOOL" = true)
    (hp : parse_tool_call_decision jl d = some ti)
    (htc : toolCall (iteration + 1) ti.tool_name ti.arguments = .error e) :
    execIntelligentLoop llm jl toolCall genFinal (fuel + 1) iteration st =
      (st, 1) := by
  rw [execIntelligentLoop_succ, hllm]
  simp only [hd, if_true, hp, htc]

theorem intelligentStep_parse_none {llm : Nat → Except String String}
    {jl : String → Option ArgMap}
    {toolCall : Nat → String → ArgMap → Except String ToolResult}
    {genFinal : AnalysisState → String} {fuel iteration : Nat}
    {st : AnalysisState} {d : String}
    (hllm : llm (iteration + 1) = .ok d)
    (hd : strContains d "CALL_TOOL" = true)
    (hp : parse_tool_call_decision jl d = none) :
    execIntelligentLoop llm jl toolCall genFinal (fuel + 1) iteration st =
      ((execIntelligentLoop llm jl toolCall genFinal fuel (iteration + 1)
          st).1,
       (execIntelligentLoop llm jl toolCall genFinal fuel (iteration + 1)
          st).2 + 1) := by
  rw [execIntelligentLoop_succ, hllm]
  simp only [hd, if_true, hp]

theorem intelligentStep_generate {llm : Nat → Except String String}
    {jl : String → Option ArgMap}
    {toolCall : Nat → String → ArgMap → Except String ToolResult}
    {genFinal : AnalysisState → String} {fuel iteration : Nat}
    {st : AnalysisState} {d : String}
    (hllm : llm (iteration + 1) = .ok d)
    (hd : strContains d "CALL_TOOL" = false)
    (hg : strContains d "GENERATE_FINAL_RESPONSE" = true) :
    execIntelligentLoop llm jl toolCall genFinal (fuel + 1) iteration st =
      ({ st with final_response := some (genFinal st) }, 1) := by
  rw [execIntelligentLoop_succ, hllm]
  simp only [hd, hg, if_true, Bool.false_eq_true, if_false]

theorem intelligentStep_need_more_info {llm : Nat → Except String String}
    {jl : String → Option ArgMap}
    {toolCall : Nat → String → ArgMap → Except String ToolResult}
    {genFinal : AnalysisState → String} {fuel iteration : Nat}
    {st : AnalysisState} {d : String}
    (hllm : llm (iteration + 1) = .ok d)
    (hd : strContains d "CALL_TOOL" = false)
    (hg : strContains d "GENERATE_FINAL_RESPONSE" = false)
    (hn : strContains d "NEED_MORE_INFO" = true) :
    execIntelligentLoop llm jl toolCall genFinal (fuel + 1) iteration st =
      ({ st with final_response := some (genFinal st) }, 1) := by
  rw [execIntelligentLoop_succ, hllm]
  simp only [hd, hg, hn, if_true, Bool.false_eq_true, if_false]

theorem intelligentStep_unparseable {llm : Nat → Except String String}
    {jl : String → Option ArgMap}
    {toolCall : Nat → String → ArgMap → Except String ToolResult}
    {genFinal : AnalysisState → String} {fuel iteration : Nat}
    {st : AnalysisState} {d : String}
    (hllm : llm (iteration + 1) = .ok d)
    (hd : strContains d "CALL_TOOL" = false)
    (hg : strContains d "GENERATE_FINAL_RESPONSE" = false)
    (hn : strContains d "NEED_MORE_INFO" = false) :
    execIntelligentLoop llm jl toolCall genFinal (fuel + 1) iteration st =
      (st, 1) := by
  rw [execIntelligentLoop_succ, hllm]
  simp only [hd, hg, hn, Bool.false_eq_true, if_false]

/-- The line scan can only leave the tool name unset or empty when every
`工具名称:`-labelled line carries an empty value. -/
theorem foldl_tool_name_empty (jl : String → Option ArgMap)
    (lines : List String) (acc : ParseAcc)
    (hacc : acc.tool_name = none ∨ acc.tool_name = some "")
    (h : ∀ l ∈ lines, strStartsWith (strTrim l) "工具名称:" = true →
      strTrim (afterFirstColon (strTrim l)) = "") :
    (lines.foldl (parseDecisionLine jl) acc).tool_name = none ∨
      (lines.foldl (parseDecisionLine jl) acc).tool_name = some "" := by
  induction lines generalizing acc with
  | nil => exact hacc
  | cons l ls ih =>
    rw [List.foldl_cons]
    refine ih (parseDecisionLine jl acc l) ?_
      (fun l' hl' => h l' (List.mem_cons_of_mem _ hl'))
    simp only [parseDecisionLine]
    split_ifs with h1 h2 h3
    · right
      simp only [h l (List.mem_cons_self _ _) h1]
    · exact hacc
    · exact hacc
    · exact hacc

/-- A successfully parsed `CALL_TOOL` decision always carries a non-empty
tool name. -/
theorem parse_tool_call_decision_name_ne (jl : String → Option ArgMap)
    (t : String) (ti : ToolCallInfo)
    (h : parse_tool_call_decision jl t = some ti) : ti.tool_name ≠ "" := by
  simp only [parse_tool_call_decision] at h
  rcases hn : ((splitLines t).foldl (parseDecisionLine jl)
      ⟨none, [], ""⟩).tool_name with _ | n
  · simp only [hn] at h
    exact Option.noConfusion h
  · simp only [hn] at h
    by_cases he : n.data.isEmpty = true
    · rw [if_pos he] at h
      exact absurd h (by simp)
    · rw [if_neg he] at h
      have hn2 : n = ti.tool_name := congrArg ToolCallInfo.tool_name
        (Option.some.inj h)
      intro hcon
      apply he
      rw [← hn2] at hcon
      rw [hcon]
      decide

/-- The single-shot loop only ever appends records whose tool name came from
a successful parse, hence non-empty. -/
theorem execIntelligentLoop_names_nonempty (llm : Nat → Except String String)
    (jl : String → Option ArgMap)
    (toolCall : Nat → String → ArgMap → Except String ToolResult)
    (genFinal : AnalysisState → String) (fuel iteration : Nat)
    (st : AnalysisState)
    (hst : ∀ r ∈ st.tool_calls, r.tool_name ≠ "") :
    ∀ r ∈ (execIntelligentLoop llm jl toolCall genFinal fuel iteration
      st).1.tool_calls, r.tool_name ≠ "" := by
  induction fuel generalizing iteration st with
  | zero => exact hst
  | succ n ih =>
    cases hllm : llm (iteration + 1) with
    | error e => rw [intelligentStep_llm_error hllm]; exact hst
    | ok d =>
      by_cases hd : strContains d "CALL_TOOL" = true
      · cases hp : parse_tool_call_decision jl d with
        | none =>
          rw [intelligentStep_parse_none hllm hd hp]
          exact ih (iteration + 1) st hst
        | some ti =>
          cases htc : toolCall (iteration + 1) ti.tool_name ti.arguments with
          | error e => rw [intelligentStep_tool_error hllm hd hp htc]; exact hst
          | ok result =>
            rw [intelligentStep_tool_ok hllm hd hp htc]
            refine ih (iteration + 1) _ ?_
            rw [recordToolCall_tool_calls]
            intro r hr
            rcases List.mem_append.1 hr with hr | hr
            · exact hst r hr
            · rcases List.mem_singleton.1 hr with rfl
              exact parse_tool_call_decision_name_ne jl d ti hp
      · rw [Bool.not_eq_true] at hd
        by_cases hg : strContains d "GENERATE_FINAL_RESPONSE" = true
        · rw [intelligentStep_generate hllm hd hg]; exact hst
        · rw [Bool.not_eq_true] at hg
          by_cases hnn : strContains d "NEED_MORE_INFO" = true
          · rw [intelligentStep_need_more_info hllm hd hg hnn]; exact hst
          · rw [Bool.not_eq_true] at hnn
            rw [intelligentStep_unparseable hllm hd hg hnn]; exact hst

/-- C7: whenever every `工具名称:`-labelled line of a decision text carries
an empty name (in particular when there is no such line at all), the parser
returns no tool-call decision — never a `CallTool` with an empty or missing
name — and, independently, every record the single-shot orchestration loop
ever appends to `tool_calls` has a non-empty tool name, so the loop never
executes a tool call with no name. -/
theorem C7_missing_name_degrades (jl : String → Option ArgMap)
    (decision_text : String)
    (h : ∀ l ∈ splitLines decision_text,
      strStartsWith (strTrim l) "工具名称:" = true →
      strTrim (afterFirstColon (strTrim l)) = "") :
    parse_tool_call_decision jl decision_text = none ∧
    ∀ llm toolCall genFinal query,
      ∀ r ∈ (execute_intelligent_analysis llm jl toolCall genFinal
        query).1.tool_calls, r.tool_name ≠ "" := by
  constructor
  · simp only [parse_tool_call_decision]
    rcases foldl_tool_name_empty jl (splitLines decision_text) ⟨none, [], ""⟩
      (Or.inl rfl) h with hn | hn
    · simp only [hn]
    · simp only [hn]
      rfl
  · intro llm toolCall genFinal query
    exact execIntelligentLoop_names_nonempty llm jl toolCall genFinal
      intelligentMaxIterations 0 (initialAnalysisState query)
      (by simp [initialAnalysisState])

/-- C7 witness: a `CALL_TOOL` block with no `工具名称:` line parses to
nothing, and the loop run against it records no tool call at all. -/
theorem C7_missing_name_degrades_witness :
    parse_tool_call_decision (fun _ => none) "CALL_TOOL\n参数: x\n原因: y" =
      none :=
  (C7_missing_name_degrades (fun _ => none) "CALL_TOOL\n参数: x\n原因: y"
    (by decide)).1

/-! #### Conditional one-step unfoldings of the chat loop -/

theorem chatStep_llm_error {llm : Nat → Except String String}
    {jl : String → Option ArgMap} {lp : String → Option (List String)}
    {toolCall : Nat → String → ArgMap → Except String ToolResult}
    {genFinal : AnalysisState → String} {fuel iteration : Nat}
    {st : AnalysisState} {e : String}
    (hllm : llm (iteration + 1) = .error e) :
    execChatLoop llm jl lp toolCall genFinal (fuel + 1) iteration st =
      (none, st, 1) := by
  rw [execChatLoop_succ, hllm]

theorem chatStep_tool_ok {llm : Nat → Except String String}
    {jl : String → Option ArgMap} {lp : String → Option (List String)}
    {toolCall : Nat → String → ArgMap → Except String ToolResult}
    {genFinal : AnalysisState → String} {fuel iteration : Nat}
    {st : AnalysisState} {d : String} {ti : ToolCallInfo} {result : ToolResult}
    (hllm : llm (iteration + 1) = .ok d)
    (hd : strContains d "CALL_TOOL" = true)
    (hp : parse_tool_call_decision jl d = some ti)
    (htc : toolCall (iteration + 1) ti.tool_name ti.arguments = .ok result) :
    execChatLoop llm jl lp toolCall genFinal (fuel + 1) iteration st =
      ((execChatLoop llm jl lp toolCall genFinal fuel (iteration + 1)
          (recordToolCall st (iteration + 1) ti result)).1,
       (execChatLoop llm jl lp toolCall genFinal fuel (iteration + 1)
          (recordToolCall st (iteration + 1) ti result)).2.1,
       (execChatLoop llm jl lp toolCall genFinal fuel (iteration + 1)
          (recordToolCall st (iteration + 1) ti result)).2.2 + 1) := by
  rw [execChatLoop_succ, hllm]
  simp only [hd, if_true, hp, htc]

theorem chatStep_tool_error {llm : Nat → Except String String}
    {jl : String → Option ArgMap} {lp : String → Option (List String)}
    {toolCall : Nat → String → ArgMap → Except String ToolResult}
    {genFinal : AnalysisState → String} {fuel iteration : Nat}
    {st : AnalysisState} {d : String} {ti : ToolCallInfo} {e : String}
    (hllm : llm (iteration + 1) = .ok d)
    (hd : strContains d "CALL_TOOL" = true)
    (hp : parse_tool_call_decision jl d = some ti)
    (htc : toolCall (iteration + 1) ti.tool_name ti.arguments = .error e) :
    execChatLoop llm jl lp toolCall genFinal (fuel + 1) iteration st =
      (none, st, 1) := by
  rw [execChatLoop_succ, hllm]
  simp only [hd, if_true, hp, htc]

theorem chatStep_parse_none {llm : Nat → Except String String}
    {jl : String → Option ArgMap} {lp : String → Option (List String)}
    {toolCall : Nat → String → ArgMap → Except String ToolResult}
    {genFinal : AnalysisState → String} {fuel iteration : Nat}
    {st : AnalysisState} {d : String}
    (hllm : llm (iteration + 1) = .ok d)
    (hd : strContains d "CALL_TOOL" = true)
    (hp : parse_tool_call_decision jl d = none) :
    execChatLoop llm jl lp toolCall genFinal (fuel + 1) iteration st =
      ((execChatLoop llm jl lp toolCall genFinal fuel (iteration + 1) st).1,
       (execChatLoop llm jl lp toolCall genFinal fuel (iteration + 1) st).2.1,
       (execChatLoop llm jl lp toolCall genFinal fuel (iteration + 1)
          st).2.2 + 1) := by
  rw [execChatLoop_succ, hllm]
  simp only [hd, if_true, hp]

theorem chatStep_generate {llm : Nat → Except String String}
    {jl : String → Option ArgMap} {lp : String → Option (List String)}
    {toolCall : Nat → String → ArgMap → Except String ToolResult}
    {genFinal : AnalysisState → String} {fuel iteration : Nat}
    {st : AnalysisState} {d : String}
    (hllm : llm (iteration + 1) = .ok d)
    (hd : strContains d "CALL_TOOL" = false)
    (hg : strContains d "GENERATE_RESPONSE" = true) :
    execChatLoop llm jl lp toolCall genFinal (fuel + 1) iteration st =
      (some ⟨genFinal st, "analysis", true,
        st.tool_calls.map (·.tool_name), [], 8⟩, st, 1) := by
  rw [execChatLoop_succ, hllm]
  simp only [hd, hg, if_true, Bool.false_eq_true, if_false]

theorem chatStep_ask_user {llm : Nat → Except String String}
    {jl : String → Option ArgMap} {lp : String → Option (List String)}
    {toolCall : Nat → String → ArgMap → Except String ToolResult}
    {genFinal : AnalysisState → String} {fuel iteration : Nat}
    {st : AnalysisState} {d : String}
    (hllm : llm (iteration + 1) = .ok d)
    (hd : strContains d "CALL_TOOL" = false)
    (hg : strContains d "GENERATE_RESPONSE" = false)
    (ha : strContains d "ASK_USER" = true) :
    execChatLoop llm jl lp toolCall genFinal (fuel + 1) iteration st =
      (some ⟨(parse_ask_user_decision lp d).1, "question", false, [],
        (parse_ask_user_decision lp d).2, 6⟩, st, 1) := by
  rw [execChatLoop_succ, hllm]
  simp only [hd, hg, ha, if_true, Bool.false_eq_true, if_false]

theorem chatStep_unparseable {llm : Nat → Except String String}
    {jl : String → Option ArgMap} {lp : String → Option (List String)}
    {toolCall : Nat → String → ArgMap → Except String ToolResult}
    {genFinal : AnalysisState → String} {fuel iteration : Nat}
    {st : AnalysisState} {d : String}
    (hllm : llm (iteration + 1) = .ok d)
    (hd : strContains d "CALL_TOOL" = false)
    (hg : strContains d "GENERATE_RESPONSE" = false)
    (ha : strContains d "ASK_USER" = false) :
    execChatLoop llm jl lp toolCall genFinal (fuel + 1) iteration st =
      (none, st, 1) := by
  rw [execChatLoop_succ, hllm]
  simp only [hd, hg, ha, Bool.false_eq_true, if_false]

/-! ### C10 — collected data never holds failed tool results -/

/-- `appendAt` preserves an all-elements predicate when the new element
satisfies it. -/
theorem appendAt_all (cd : List (String × List ToolResult)) (k : String)
    (r : ToolResult) (q : ToolResult → Bool)
    (h : (cd.all fun p => p.2.all q) = true) (hr : q r = true) :
    ((appendAt cd k r).all fun p => p.2.all q) = true := by
  unfold appendAt
  split
  · rw [List.all_eq_true] at h ⊢
    intro p hp
    rw [List.mem_map] at hp
    obtain ⟨p0, hp0, rfl⟩ := hp
    split
    · simp only [List.all_append]
      have := h p0 hp0
      simp [this, hr]
    · exact h p0 hp0
  · simp [List.all_append, List.all_eq_true] at h ⊢
    exact ⟨fun p hp => h p hp, hr⟩

/-- `_update_collected_data` keeps `collected_data` free of error-carrying
results: a result with an `"error"` key is dropped before folding. -/
theorem update_collected_data_errorFree (st : AnalysisState) (tn : String)
    (r : ToolResult) (h : collectedErrorFree st = true) :
    collectedErrorFree (update_collected_data st tn r) = true := by
  unfold update_collected_data
  by_cases he : hasKey r "error" = true
  · simp only [he, if_true]
    exact h
  · rw [Bool.not_eq_true] at he
    simp only [he, Bool.false_eq_true, if_false]
    unfold collectedErrorFree at h ⊢
    exact appendAt_all _ _ _ _ h (by rw [he]; rfl)

theorem recordToolCall_errorFree (st : AnalysisState) (iter : Nat)
    (ti : ToolCallInfo) (result : ToolResult)
    (h : collectedErrorFree st = true) :
    collectedErrorFree (recordToolCall st iter ti result) = true := by
  unfold recordToolCall
  exact update_collected_data_errorFree _ _ _ h

theorem recordToolCall_successConsistent (st : AnalysisState) (iter : Nat)
    (ti : ToolCallInfo) (result : ToolResult)
    (h : successConsistent st = true) :
    successConsistent (recordToolCall st iter ti result) = true := by
  unfold successConsistent at h ⊢
  rw [recordToolCall_tool_calls]
  simp [List.all_append, List.all_eq_true] at h ⊢
  exact fun c hc => h c hc

/-- The single-shot loop preserves the collected-data invariants. -/
theorem execIntelligentLoop_invariant (llm : Nat → Except String String)
    (jl : String → Option ArgMap)
    (toolCall : Nat → String → ArgMap → Except String ToolResult)
    (genFinal : AnalysisState → String) (fuel iteration : Nat)
    (st : AnalysisState) (h1 : collectedErrorFree st = true)
    (h2 : successConsistent st = true) :
    collectedErrorFree (execIntelligentLoop llm jl toolCall genFinal fuel
      iteration st).1 = true ∧
    successConsistent (execIntelligentLoop llm jl toolCall genFinal fuel
      iteration st).1 = true := by
  induction fuel generalizing iteration st with
  | zero => exact ⟨h1, h2⟩
  | succ n ih =>
    cases hllm : llm (iteration + 1) with
    | error e => rw [intelligentStep_llm_error hllm]; exact ⟨h1, h2⟩
    | ok d =>
      by_cases hd : strContains d "CALL_TOOL" = true
      · cases hp : parse_tool_call_decision jl d with
        | none =>
          rw [intelligentStep_parse_none hllm hd hp]
          exact ih (iteration + 1) st h1 h2
        | some ti =>
          cases htc : toolCall (iteration + 1) ti.tool_name ti.arguments with
          | error e =>
            rw [intelligentStep_tool_error hllm hd hp htc]; exact ⟨h1, h2⟩
          | ok result =>
            rw [intelligentStep_tool_ok hllm hd hp htc]
            exact ih (iteration + 1) _
              (recordToolCall_errorFree _ _ _ _ h1)
              (recordToolCall_successConsistent _ _ _ _ h2)
      · rw [Bool.not_eq_true] at hd
        by_cases hg : strContains d "GENERATE_FINAL_RESPONSE" = true
        · rw [intelligentStep_generate hllm hd hg]; exact ⟨h1, h2⟩
        · rw [Bool.not_eq_true] at hg
          by_cases hnn : strContains d "NEED_MORE_INFO" = true
          · rw [intelligentStep_need_more_info hllm hd hg hnn]; exact ⟨h1, h2⟩
          · rw [Bool.not_eq_true] at hnn
            rw [intelligentStep_unparseable hllm hd hg hnn]; exact ⟨h1, h2⟩

/-- The chat loop preserves the collected-data invariants. -/
theorem execChatLoop_invariant (llm : Nat → Except String String)
    (jl : String → Option ArgMap) (lp : String → Option (List String))
    (toolCall : Nat → String → ArgMap → Except String ToolResult)
    (genFinal : AnalysisState → String) (fuel iteration : Nat)
    (st : AnalysisState) (h1 : collectedErrorFree st = true)
    (h2 : successConsistent st = true) :
    collectedErrorFree (execChatLoop llm jl lp toolCall genFinal fuel
      iteration st).2.1 = true ∧
    successConsistent (execChatLoop llm jl lp toolCall genFinal fuel
      iteration st).2.1 = true := by
  induction fuel generalizing iteration st with
  | zero => exact ⟨h1, h2⟩
  | succ n ih =>
    cases hllm : llm (iteration + 1) with
    | error e => rw [chatStep_llm_error hllm]; exact ⟨h1, h2⟩
    | ok d =>
      by_cases hd : strContains d "CALL_TOOL" = true
      · cases hp : parse_tool_call_decision jl d with
        | none =>
          rw [chatStep_parse_none hllm hd hp]
          exact ih (iteration + 1) st h1 h2
        | some ti =>
          cases htc : toolCall (iteration + 1) ti.tool_name ti.arguments with
          | error e => rw [chatStep_tool_error hllm hd hp htc]; exact ⟨h1, h2⟩
          | ok result =>
            rw [chatStep_tool_ok hllm hd hp htc]
            exact ih (iteration + 1) _
              (recordToolCall_errorFree _ _ _ _ h1)
              (recordToolCall_successConsistent _ _ _ _ h2)
      · rw [Bool.not_eq_true] at hd
        by_cases hg : strContains d "GENERATE_RESPONSE" = true
        · rw [chatStep_generate hllm hd hg]; exact ⟨h1, h2⟩
        · rw [Bool.not_eq_true] at hg
          by_cases ha : strContains d "ASK_USER" = true
          · rw [chatStep_ask_user hllm hd hg ha]; exact ⟨h1, h2⟩
          · rw [Bool.not_eq_true] at ha
            rw [chatStep_unparseable hllm hd hg ha]; exact ⟨h1, h2⟩

/-- C10: in every run of the orchestration loop — single-shot or chat —
every element of every list stored in `collected_data` is a tool result with
no `"error"` key, and every `ToolCallRecord` carries
`success = ("error" not in result)`, so a failed tool call is recorded only
in `tool_calls` (with `success = false`) and never folded into
`collected_data`. -/
theorem C10_collected_data_error_free (llm : Nat → Except String String)
    (jl : String → Option ArgMap) (lp : String → Option (List String))
    (toolCall : Nat → String → ArgMap → Except String ToolResult)
    (genFinal : AnalysisState → String) (query : String) :
    (collectedErrorFree (execute_intelligent_analysis llm jl toolCall
        genFinal query).1 = true ∧
      successConsistent (execute_intelligent_analysis llm jl toolCall
        genFinal query).1 = true) ∧
    (collectedErrorFree (execChatLoop llm jl lp toolCall genFinal
        chatMaxIterations 0 (initialAnalysisState query)).2.1 = true ∧
      successConsistent (execChatLoop llm jl lp toolCall genFinal
        chatMaxIterations 0 (initialAnalysisState query)).2.1 = true) :=
  ⟨execIntelligentLoop_invariant llm jl toolCall genFinal
      intelligentMaxIterations 0 (initialAnalysisState query) rfl rfl,
    execChatLoop_invariant llm jl lp toolCall genFinal
      chatMaxIterations 0 (initialAnalysisState query) rfl rfl⟩

/-! ### C1 — bounded termination and forced generation -/

/-- Under a reasoning-engine stub that always returns a `CALL_TOOL`-tagged
decision, the single-shot loop never sets `final_response` and consults the
engine at most `fuel` times. -/
theorem execIntelligentLoop_always_call_tool (llm : Nat → Except String String)
    (jl : String → Option ArgMap)
    (toolCall : Nat → String → ArgMap → Except String ToolResult)
    (genFinal : AnalysisState → String)
    (hstub : ∀ n, ∃ s, llm n = .ok s ∧ strContains s "CALL_TOOL" = true)
    (fuel iteration : Nat) (st : AnalysisState) :
    (execIntelligentLoop llm jl toolCall genFinal fuel iteration
        st).1.final_response = st.final_response ∧
    (execIntelligentLoop llm jl toolCall genFinal fuel iteration st).2 ≤
      fuel := by
  induction fuel generalizing iteration st with
  | zero => exact ⟨rfl, Nat.le_refl 0⟩
  | succ n ih =>
    obtain ⟨s, hs, hc⟩ := hstub (iteration + 1)
    cases hp : parse_tool_call_decision jl s with
    | none =>
      rw [intelligentStep_parse_none hs hc hp]
      have h := ih (iteration + 1) st
      exact ⟨h.1, by omega⟩
    | some ti =>
      cases htc : toolCall (iteration + 1) ti.tool_name ti.arguments with
      | error e =>
        rw [intelligentStep_tool_error hs hc hp htc]
        exact ⟨rfl, by omega⟩
      | ok result =>
        rw [intelligentStep_tool_ok hs hc hp htc]
        have h := ih (iteration + 1) (recordToolCall st (iteration + 1) ti result)
        refine ⟨?_, by omega⟩
        rw [h.1, recordToolCall_final_response]

/-- Under a reasoning-engine stub that always returns a `CALL_TOOL`-tagged
decision, the chat loop never returns from inside the loop and consults the
engine at most `fuel` times. -/
theorem execChatLoop_always_call_tool (llm : Nat → Except String String)
    (jl : String → Option ArgMap) (lp : String → Option (List String))
    (toolCall : Nat → String → ArgMap → Except String ToolResult)
    (genFinal : AnalysisState → String)
    (hstub : ∀ n, ∃ s, llm n = .ok s ∧ strContains s "CALL_TOOL" = true)
    (fuel iteration : Nat) (st : AnalysisState) :
    (execChatLoop llm jl lp toolCall genFinal fuel iteration st).1 = none ∧
    (execChatLoop llm jl lp toolCall genFinal fuel iteration st).2.2 ≤
      fuel := by
  induction fuel generalizing iteration st with
  | zero => exact ⟨rfl, Nat.le_refl 0⟩
  | succ n ih =>
    obtain ⟨s, hs, hc⟩ := hstub (iteration + 1)
    cases hp : parse_tool_call_decision jl s with
    | none =>
      rw [chatStep_parse_none hs hc hp]
      have h := ih (iteration + 1) st
      exact ⟨h.1, Nat.succ_le_succ h.2⟩
    | some ti =>
      cases htc : toolCall (iteration + 1) ti.tool_name ti.arguments with
      | error e =>
        rw [chatStep_tool_error hs hc hp htc]
        exact ⟨rfl, Nat.succ_le_succ (Nat.zero_le n)⟩
      | ok result =>
        rw [chatStep_tool_ok hs hc hp htc]
        have h := ih (iteration + 1) (recordToolCall st (iteration + 1) ti result)
        exact ⟨h.1, Nat.succ_le_succ h.2⟩

/-- C1 counterexample: with a reasoning-engine stub that always returns a
`CallTool` decision and a tool gateway that always succeeds, single-shot
mode (`_execute_intelligent_analysis`) exhausts its 15 iterations and
returns with `final_response` *absent* — no `GenerateResponse` is forced
after the loop, contradicting the claim that both modes return a non-null
final response. -/
theorem C1_counterexample :
    (execute_intelligent_analysis
      (fun _ => .ok "CALL_TOOL\n工具名称: t\n参数: p\n原因: r")
      (fun _ => none) (fun _ _ _ => .ok [("result", "ok")])
      (fun _ => "done") "q").1.final_response = none := rfl

/-- C1 (amended): for every reasoning-engine stub that always returns a
`CALL_TOOL` decision, both loops terminate after at most `max_iterations`
reasoning-engine consultations (15 single-shot, 10 chat); chat mode
(`_execute_chat_analysis`) then forces a `GenerateResponse` built from the
collected state and returns it as an `analysis` result, while single-shot
mode (`_execute_intelligent_analysis`) returns with `final_response` absent
— it has no post-loop forced generation. -/
theorem C1_bounded_termination (llm : Nat → Except String String)
    (jl : String → Option ArgMap) (lp : String → Option (List String))
    (toolCall : Nat → String → ArgMap → Except String ToolResult)
    (genFinal : AnalysisState → String) (query : String)
    (hstub : ∀ n, ∃ s, llm n = .ok s ∧ strContains s "CALL_TOOL" = true) :
    ((execute_intelligent_analysis llm jl toolCall genFinal query).2 ≤
        intelligentMaxIterations ∧
      (execute_intelligent_analysis llm jl toolCall genFinal
        query).1.final_response = none) ∧
    ((execute_chat_analysis llm jl lp toolCall genFinal query).2 ≤
        chatMaxIterations ∧
      (execute_chat_analysis llm jl lp toolCall genFinal query).1.response =
        genFinal (execChatLoop llm jl lp toolCall genFinal chatMaxIterations 0
          (initialAnalysisState query)).2.1 ∧
      (execute_chat_analysis llm jl lp toolCall genFinal
        query).1.message_type = "analysis") := by
  have hsingle := execIntelligentLoop_always_call_tool llm jl toolCall genFinal
    hstub intelligentMaxIterations 0 (initialAnalysisState query)
  have hchat := execChatLoop_always_call_tool llm jl lp toolCall genFinal
    hstub chatMaxIterations 0 (initialAnalysisState query)
  have hrw : execute_chat_analysis llm jl lp toolCall genFinal query =
      (⟨genFinal (execChatLoop llm jl lp toolCall genFinal chatMaxIterations 0
          (initialAnalysisState query)).2.1, "analysis", true,
        (execChatLoop llm jl lp toolCall genFinal chatMaxIterations 0
          (initialAnalysisState query)).2.1.tool_calls.map (·.tool_name),
        [], 7⟩,
       (execChatLoop llm jl lp toolCall genFinal chatMaxIterations 0
          (initialAnalysisState query)).2.2) := by
    simp only [execute_chat_analysis, hchat.1]
  refine ⟨⟨hsingle.2, hsingle.1⟩, ?_⟩
  rw [hrw]
  exact ⟨hchat.2, rfl, rfl⟩

/-- C1 witness: the amended theorem applied to the concrete always-`CallTool`
stub. -/
theorem C1_bounded_termination_witness :
    (execute_intelligent_analysis
        (fun _ => .ok "CALL_TOOL\n工具名称: t\n参数: p\n原因: r")
        (fun _ => none) (fun _ _ _ => .ok [("result", "ok")])
        (fun _ => "done") "q").2 ≤ intelligentMaxIterations ∧
    (execute_chat_analysis
        (fun _ => .ok "CALL_TOOL\n工具名称: t\n参数: p\n原因: r")
        (fun _ => none) (fun _ => none) (fun _ _ _ => .ok [("result", "ok")])
        (fun _ => "done") "q").1.response = "done" := by
  have h := C1_bounded_termination
    (fun _ => .ok "CALL_TOOL\n工具名称: t\n参数: p\n原因: r")
    (fun _ => none) (fun _ => none) (fun _ _ _ => .ok [("result", "ok")])
    (fun _ => "done") "q"
    (fun _ => ⟨"CALL_TOOL\n工具名称: t\n参数: p\n原因: r", rfl, rfl⟩)
  exact ⟨h.1.1, h.2.2.1⟩

/-! ### C2 — terminal handling of `NEED_MORE_INFO` and unparseable text -/

/-- C2 counterexample: in single-shot mode a `NEED_MORE_INFO` decision does
*not* abort with no response — lines 515–521 force a final response from the
data collected so far, contradicting the claim that `NeedMoreInfo`
transitions to `Aborted` with its final response absent. -/
theorem C2_counterexample :
    (execute_intelligent_analysis
      (fun _ => .ok "NEED_MORE_INFO\n需要的信息: 具体地址")
      (fun _ => none) (fun _ _ _ => .ok []) (fun _ => "forced")
      "q").1.final_response = some "forced" := rfl

/-- C2 (amended): in the single-shot loop, a decision carrying none of the
recognized tags (Unparseable) ends the run with its final response absent
after that single consultation, and no answer is synthesized; but a
`NEED_MORE_INFO` decision is handled by forcing a `GenerateResponse` from
whatever has been collected — only the unparseable case aborts with no
response. -/
theorem C2_terminal_decisions (llm : Nat → Except String String)
    (jl : String → Option ArgMap)
    (toolCall : Nat → String → ArgMap → Except String ToolResult)
    (genFinal : AnalysisState → String) (query s : String)
    (h1 : llm 1 = .ok s)
    (h2 : strContains s "CALL_TOOL" = false)
    (h3 : strContains s "GENERATE_FINAL_RESPONSE" = false) :
    (strContains s "NEED_MORE_INFO" = false →
      execute_intelligent_analysis llm jl toolCall genFinal query =
        (initialAnalysisState query, 1)) ∧
    (strContains s "NEED_MORE_INFO" = true →
      execute_intelligent_analysis llm jl toolCall genFinal query =
        ({ initialAnalysisState query with
            final_response := some (genFinal (initialAnalysisState query)) },
          1)) := by
  constructor
  · intro h4
    exact @intelligentStep_unparseable llm jl toolCall genFinal 14 0
      (initialAnalysisState query) s h1 h2 h3 h4
  · intro h4
    exact @intelligentStep_need_more_info llm jl toolCall genFinal 14 0
      (initialAnalysisState query) s h1 h2 h3 h4

/-- C2 witness: both branches of the amended theorem evaluated on concrete
decision texts. -/
theorem C2_terminal_decisions_witness :
    execute_intelligent_analysis (fun _ => .ok "完全无法解析的文本")
        (fun _ => none) (fun _ _ _ => .ok []) (fun _ => "g") "q" =
      (initialAnalysisState "q", 1) ∧
    execute_intelligent_analysis
        (fun _ => .ok "NEED_MORE_INFO\n需要的信息: 具体地址")
        (fun _ => none) (fun _ _ _ => .ok []) (fun _ => "g") "q" =
      ({ initialAnalysisState "q" with
          final_response := some "g" }, 1) := by
  constructor
  · exact (C2_terminal_decisions (fun _ => .ok "完全无法解析的文本")
      (fun _ => none) (fun _ _ _ => .ok []) (fun _ => "g") "q"
      "完全无法解析的文本" rfl rfl rfl).1 rfl
  · exact (C2_terminal_decisions
      (fun _ => .ok "NEED_MORE_INFO\n需要的信息: 具体地址")
      (fun _ => none) (fun _ _ _ => .ok []) (fun _ => "g") "q"
      "NEED_MORE_INFO\n需要的信息: 具体地址" rfl rfl rfl).2 rfl

/-! ### C4 — retry / backend-fallback policy of `_call_llm_with_retry` -/

/-- One unfolding of the retry loop. -/
theorem callLlmLoop_succ (models : List String) (rd mr : Nat)
    (stub : Nat → LlmOutcome) (fuel attempt idx : Nat) :
    callLlmLoop models rd mr stub (fuel + 1) attempt idx =
      match stub attempt with
      | .success text => (.ok text, idx, [])
      | .failure error_msg =>
        if isQuotaError error_msg then
          match switch_to_next_model models idx with
          | some idx' =>
            let r := callLlmLoop models rd mr stub fuel (attempt + 1) idx'
            (r.1, r.2.1, .switchModel idx' :: r.2.2)
          | none =>
            if attempt < mr - 1 then
              let r := callLlmLoop models rd mr stub fuel (attempt + 1) 0
              (r.1, r.2.1,
                .sleep (rd * 2 ^ attempt) :: .resetToFirst :: r.2.2)
            else
              callLlmLoop models rd mr stub fuel (attempt + 1) idx
        else
          if attempt < mr - 1 then
            let r := callLlmLoop models rd mr stub fuel (attempt + 1) idx
            (r.1, r.2.1, .sleep (rd * 2 ^ attempt) :: r.2.2)
          else
            callLlmLoop models rd mr stub fuel (attempt + 1) idx := rfl

theorem callLlm_quota_switch {models : List String} {rd mr : Nat}
    {stub : Nat → LlmOutcome} {fuel attempt idx idx' : Nat} {m : String}
    (hm : stub attempt = .failure m) (hq : isQuotaError m = true)
    (hsw : switch_to_next_model models idx = some idx') :
    callLlmLoop models rd mr stub (fuel + 1) attempt idx =
      ((callLlmLoop models rd mr stub fuel (attempt + 1) idx').1,
       (callLlmLoop models rd mr stub fuel (attempt + 1) idx').2.1,
       .switchModel idx' ::
         (callLlmLoop models rd mr stub fuel (attempt + 1) idx').2.2) := by
  rw [callLlmLoop_succ, hm]
  simp only [hq, if_true, hsw]

theorem callLlm_quota_backoff_reset {models : List String} {rd mr : Nat}
    {stub : Nat → LlmOutcome} {fuel attempt idx : Nat} {m : String}
    (hm : stub attempt = .failure m) (hq : isQuotaError m = true)
    (hsw : switch_to_next_model models idx = none)
    (hlt : attempt < mr - 1) :
    callLlmLoop models rd mr stub (fuel + 1) attempt idx =
      ((callLlmLoop models rd mr stub fuel (attempt + 1) 0).1,
       (callLlmLoop models rd mr stub fuel (attempt + 1) 0).2.1,
       .sleep (rd * 2 ^ attempt) :: .resetToFirst ::
         (callLlmLoop models rd mr stub fuel (attempt + 1) 0).2.2) := by
  rw [callLlmLoop_succ, hm]
  simp only [hq, if_true, hsw, hlt]

theorem callLlm_quota_last {models : List String} {rd mr : Nat}
    {stub : Nat → LlmOutcome} {fuel attempt idx : Nat} {m : String}
    (hm : stub attempt = .failure m) (hq : isQuotaError m = true)
    (hsw : switch_to_next_model models idx = none)
    (hlt : ¬ attempt < mr - 1) :
    callLlmLoop models rd mr stub (fuel + 1) attempt idx =
      callLlmLoop models rd mr stub fuel (attempt + 1) idx := by
  rw [callLlmLoop_succ, hm]
  simp only [hq, if_true, hsw, hlt, if_false]

theorem callLlm_other_backoff {models : List String} {rd mr : Nat}
    {stub : Nat → LlmOutcome} {fuel attempt idx : Nat} {m : String}
    (hm : stub attempt = .failure m) (hq : isQuotaError m = false)
    (hlt : attempt < mr - 1) :
    callLlmLoop models rd mr stub (fuel + 1) attempt idx =
      ((callLlmLoop models rd mr stub fuel (attempt + 1) idx).1,
       (callLlmLoop models rd mr stub fuel (attempt + 1) idx).2.1,
       .sleep (rd * 2 ^ attempt) ::
         (callLlmLoop models rd mr stub fuel (attempt + 1) idx).2.2) := by
  rw [callLlmLoop_succ, hm]
  simp only [hq, Bool.false_eq_true, if_false, hlt, if_true]

theorem callLlm_other_last {models : List String} {rd mr : Nat}
    {stub : Nat → LlmOutcome} {fuel attempt idx : Nat} {m : String}
    (hm : stub attempt = .failure m) (hq : isQuotaError m = false)
    (hlt : ¬ attempt < mr - 1) :
    callLlmLoop models rd mr stub (fuel + 1) attempt idx =
      callLlmLoop models rd mr stub fuel (attempt + 1) idx := by
  rw [callLlmLoop_succ, hm]
  simp only [hq, Bool.false_eq_true, if_false, hlt]

/-- When every attempt fails, the retry loop ends in the trailing
`raise Exception(...)`. -/
theorem callLlmLoop_all_fail (models : List String) (rd mr : Nat)
    (stub : Nat → LlmOutcome) (fuel attempt idx : Nat)
    (h : ∀ j, j < fuel → ∃ m, stub (attempt + j) = .failure m) :
    (callLlmLoop models rd mr stub fuel attempt idx).1 =
      .error ("LLM调用失败，已重试 " ++ toString mr ++ " 次") := by
  induction fuel generalizing attempt idx with
  | zero => rfl
  | succ n ih =>
    obtain ⟨m, hm⟩ := h 0 n.succ_pos
    rw [Nat.add_zero] at hm
    have h' : ∀ j, j < n → ∃ m, stub (attempt + 1 + j) = .failure m := by
      intro j hj
      have hx := h (j + 1) (by omega)
      rwa [show attempt + (j + 1) = attempt + 1 + j by omega] at hx
    by_cases hq : isQuotaError m = true
    · cases hsw : switch_to_next_model models idx with
      | some idx' =>
        rw [callLlm_quota_switch hm hq hsw]
        exact ih (attempt + 1) idx' h'
      | none =>
        by_cases hlt : attempt < mr - 1
        · rw [callLlm_quota_backoff_reset hm hq hsw hlt]
          exact ih (attempt + 1) 0 h'
        · rw [callLlm_quota_last hm hq hsw hlt]
          exact ih (attempt + 1) idx h'
    · rw [Bool.not_eq_true] at hq
      by_cases hlt : attempt < mr - 1
      · rw [callLlm_other_backoff hm hq hlt]
        exact ih (attempt + 1) idx h'
      · rw [callLlm_other_last hm hq hlt]
        exact ih (attempt + 1) idx h'

/-- C4: the retry/fallback policy of `_call_llm_with_retry`. With the
`__init__` defaults `base_delay = 1`, `max_retries = 3`: (i) a
rate-limit/quota-class error (text containing `"429"` or `"quota"`) while a
further backend exists switches to the next backend and retries immediately
— the side-effect trace gains only the switch, no sleep; (ii) with no
further backend and the ceiling not yet reached, the client sleeps
`base_delay * 2^k` seconds for the 0-indexed attempt `k`, resets to the
first backend, and retries; (iii) any other error class retries on the same
backend with the same backoff schedule; and (iv) when every attempt fails,
the call raises an exception instead of returning a value. -/
theorem C4_retry_fallback_policy (models : List String) (rd mr : Nat)
    (stub : Nat → LlmOutcome) (fuel attempt idx idx0 : Nat) (m : String) :
    (defaultRetryDelay = 1 ∧ defaultMaxRetries = 3) ∧
    (stub attempt = .failure m → isQuotaError m = true →
      idx < models.length - 1 →
      callLlmLoop models rd mr stub (fuel + 1) attempt idx =
        ((callLlmLoop models rd mr stub fuel (attempt + 1) (idx + 1)).1,
         (callLlmLoop models rd mr stub fuel (attempt + 1) (idx + 1)).2.1,
         .switchModel (idx + 1) ::
           (callLlmLoop models rd mr stub fuel (attempt + 1)
             (idx + 1)).2.2)) ∧
    (stub attempt = .failure m → isQuotaError m = true →
      ¬ idx < models.length - 1 → attempt < mr - 1 →
      callLlmLoop models rd mr stub (fuel + 1) attempt idx =
        ((callLlmLoop models rd mr stub fuel (attempt + 1) 0).1,
         (callLlmLoop models rd mr stub fuel (attempt + 1) 0).2.1,
         .sleep (rd * 2 ^ attempt) :: .resetToFirst ::
           (callLlmLoop models rd mr stub fuel (attempt + 1) 0).2.2)) ∧
    (stub attempt = .failure m → isQuotaError m = false →
      attempt < mr - 1 →
      callLlmLoop models rd mr stub (fuel + 1) attempt idx =
        ((callLlmLoop models rd mr stub fuel (attempt + 1) idx).1,
         (callLlmLoop models rd mr stub fuel (attempt + 1) idx).2.1,
         .sleep (rd * 2 ^ attempt) ::
           (callLlmLoop models rd mr stub fuel (attempt + 1) idx).2.2)) ∧
    ((∀ j, j < mr → ∃ e, stub j = .failure e) →
      (call_llm_with_retry models rd mr stub idx0).1 =
        .error ("LLM调用失败，已重试 " ++ toString mr ++ " 次")) := by
  refine ⟨⟨rfl, rfl⟩, ?_, ?_, ?_, ?_⟩
  · intro hm hq hidx
    exact callLlm_quota_switch hm hq
      (by unfold switch_to_next_model; rw [if_pos hidx])
  · intro hm hq hidx hlt
    exact callLlm_quota_backoff_reset hm hq
      (by unfold switch_to_next_model; rw [if_neg hidx]) hlt
  · intro hm hq hlt
    exact callLlm_other_backoff hm hq hlt
  · intro hfail
    exact callLlmLoop_all_fail models rd mr stub mr 0 idx0
      (fun j hj => by simpa using hfail j hj)

/-- C4 witness: every branch of the policy exercised on concrete inputs —
the two-backend default list, a quota error (switch with no sleep at attempt
0 on backend 0; sleep `1 * 2^1 = 2` then reset at attempt 1 on backend 1), a
non-quota error (sleep `1 * 2^0 = 1` on the same backend), and total
exhaustion (the raised exception). -/
theorem C4_retry_fallback_policy_witness :
    (callLlmLoop defaultModels defaultRetryDelay defaultMaxRetries
        (fun _ => .failure "429 RESOURCE_EXHAUSTED") (2 + 1) 0 0 =
      ((callLlmLoop defaultModels defaultRetryDelay defaultMaxRetries
          (fun _ => .failure "429 RESOURCE_EXHAUSTED") 2 1 1).1,
       (callLlmLoop defaultModels defaultRetryDelay defaultMaxRetries
          (fun _ => .failure "429 RESOURCE_EXHAUSTED") 2 1 1).2.1,
       .switchModel 1 ::
         (callLlmLoop defaultModels defaultRetryDelay defaultMaxRetries
            (fun _ => .failure "429 RESOURCE_EXHAUSTED") 2 1 1).2.2)) ∧
    (callLlmLoop defaultModels defaultRetryDelay defaultMaxRetries
        (fun _ => .failure "429 RESOURCE_EXHAUSTED") (1 + 1) 1 1 =
      ((callLlmLoop defaultModels defaultRetryDelay defaultMaxRetries
          (fun _ => .failure "429 RESOURCE_EXHAUSTED") 1 2 0).1,
       (callLlmLoop defaultModels defaultRetryDelay defaultMaxRetries
          (fun _ => .failure "429 RESOURCE_EXHAUSTED") 1 2 0).2.1,
       .sleep 2 :: .resetToFirst ::
         (callLlmLoop defaultModels defaultRetryDelay defaultMaxRetries
            (fun _ => .failure "429 RESOURCE_EXHAUSTED") 1 2 0).2.2)) ∧
    (callLlmLoop defaultModels defaultRetryDelay defaultMaxRetries
        (fun _ => .failure "server exploded") (2 + 1) 0 1 =
      ((callLlmLoop defaultModels defaultRetryDelay defaultMaxRetries
          (fun _ => .failure "server exploded") 2 1 1).1,
       (callLlmLoop defaultModels defaultRetryDelay defaultMaxRetries
          (fun _ => .failure "server exploded") 2 1 1).2.1,
       .sleep 1 ::
         (callLlmLoop defaultModels defaultRetryDelay defaultMaxRetries
            (fun _ => .failure "server exploded") 2 1 1).2.2)) ∧
    (call_llm_with_retry defaultModels defaultRetryDelay defaultMaxRetries
        (fun _ => .failure "429 RESOURCE_EXHAUSTED") 0).1 =
      .error ("LLM调用失败，已重试 " ++ toString defaultMaxRetries ++ " 次") := by
  refine ⟨?_, ?_, ?_, ?_⟩
  · exact (C4_retry_fallback_policy defaultModels defaultRetryDelay
      defaultMaxRetries (fun _ => .failure "429 RESOURCE_EXHAUSTED") 2 0 0 0
      "429 RESOURCE_EXHAUSTED").2.1 rfl rfl (by decide)
  · exact (C4_retry_fallback_policy defaultModels defaultRetryDelay
      defaultMaxRetries (fun _ => .failure "429 RESOURCE_EXHAUSTED") 1 1 1 0
      "429 RESOURCE_EXHAUSTED").2.2.1 rfl rfl (by decide) (by decide)
  · exact (C4_retry_fallback_policy defaultModels defaultRetryDelay
      defaultMaxRetries (fun _ => .failure "server exploded") 2 0 1 0
      "server exploded").2.2.2.1 rfl rfl (by decide)
  · exact (C4_retry_fallback_policy defaultModels defaultRetryDelay
      defaultMaxRetries (fun _ => .failure "429 RESOURCE_EXHAUSTED") 0 0 0 0
      "429 RESOURCE_EXHAUSTED").2.2.2.2
      (fun j hj => ⟨"429 RESOURCE_EXHAUSTED", rfl⟩)

/-! ### C9 — `ConversationManager.add_message` -/

/-- Appending a message under `cid` updates exactly the conversation that a
lookup of `cid` finds. -/
theorem lookupConv_appendMessage (store : ConvStore) (cid : String)
    (m : Message) :
    lookupConv (appendMessage store cid m) cid =
      (lookupConv store cid).map
        (fun c => { c with messages := c.messages ++ [m] }) := by
  induction store with
  | nil => rfl
  | cons p ps ih =>
    unfold lookupConv appendMessage at ih ⊢
    rw [List.map_cons]
    by_cases hk : (p.1 == cid) = true
    · rw [if_pos hk]
      simp only [List.find?_cons, hk, if_true]
      rfl
    · rw [if_neg hk]
      rw [Bool.not_eq_true] at hk
      simp only [List.find?_cons, hk, Bool.false_eq_true, if_false]
      exact ih

/-- `appendMessage` does not change which keys are present. -/
theorem lookupConv_appendMessage_none (store : ConvStore) (k c : String)
    (m : Message) (h : lookupConv store c = none) :
    lookupConv (appendMessage store k m) c = none := by
  unfold lookupConv at h ⊢
  unfold appendMessage
  rw [Option.map_eq_none'] at h ⊢
  rw [List.find?_eq_none] at h ⊢
  intro x hx
  rw [List.mem_map] at hx
  obtain ⟨x0, hx0, rfl⟩ := hx
  have hx0c := h x0 hx0
  by_cases hk : (x0.1 == k) = true
  · rw [if_pos hk]
    exact hx0c
  · rw [if_neg hk]
    exact hx0c

/-- A lookup that fails on the left part of a concatenation falls through to
the right part. -/
theorem lookupConv_append_none (s t : ConvStore) (c : String)
    (h : lookupConv s c = none) :
    lookupConv (s ++ t) c = lookupConv t c := by
  unfold lookupConv at h ⊢
  rw [List.find?_append]
  rw [Option.map_eq_none'] at h
  rw [h]
  rfl

/-- C9 counterexample: appending under the *unknown* session id `"X"` does
not create `"X"` — `add_message` discards the given id, creates a session
under a fresh uuid, and appends there, so after the call the session
identified by the given `session_id` still does not exist, contradicting the
claim that it then contains the appended message. -/
theorem C9_counterexample :
    lookupConv (add_message [] "3f2b8c1e-0000-4000-8000-000000000000"
      "2024-01-01T00:00:00" "X" "user" "你好" []).1 "X" = none := rfl

/-- C9 (amended): `add_message` is total (never raises). For a known id it
appends the timestamped message to that session — which then holds it as its
last element — and returns the same id. For an unknown id it creates a
session under the freshly generated uuid, appends the message there, and
returns the fresh id; the given id is *not* created (it remains absent
whenever it differs from the fresh uuid). -/
theorem C9_add_message_upsert (store : ConvStore)
    (freshId now cid role content : String) (md : List (String × String)) :
    (∀ c, lookupConv store cid = some c →
      (add_message store freshId now cid role content md).2 = cid ∧
      lookupConv (add_message store freshId now cid role content md).1 cid =
        some { c with messages := c.messages ++ [⟨role, content, now, md⟩] }) ∧
    (lookupConv store cid = none →
      (add_message store freshId now cid role content md).2 = freshId ∧
      (freshId ≠ cid →
        lookupConv (add_message store freshId now cid role content md).1 cid =
          none) ∧
      (lookupConv store freshId = none →
        lookupConv (add_message store freshId now cid role content md).1
            freshId =
          some ⟨freshId, now, [⟨role, content, now, md⟩]⟩)) := by
  constructor
  · intro c hc
    unfold add_message
    simp only [hc]
    exact ⟨trivial, by rw [lookupConv_appendMessage, hc]; rfl⟩
  · intro hc
    unfold add_message
    simp only [hc]
    unfold create_conversation
    refine ⟨rfl, fun hne => ?_, fun hf => ?_⟩
    · apply lookupConv_appendMessage_none
      rw [lookupConv_append_none _ _ _ hc]
      simp [lookupConv, beq_eq_false_iff_ne.2 hne]
    · rw [lookupConv_appendMessage]
      rw [lookupConv_append_none _ _ _ hf]
      simp [lookupConv]

/-- C9 witness: both branches of the amended theorem evaluated on concrete
stores — a known id gets the message appended in place, an unknown id lands
in the fresh session while the given id stays absent. -/
theorem C9_add_message_upsert_witness :
    (add_message [("A", ⟨"A", "t0", []⟩)] "fresh-uuid" "t1" "A" "user" "hi"
        []).2 = "A" ∧
    lookupConv (add_message [("A", ⟨"A", "t0", []⟩)] "fresh-uuid" "t1" "A"
        "user" "hi" []).1 "A" =
      some ⟨"A", "t0", [⟨"user", "hi", "t1", []⟩]⟩ ∧
    (add_message [] "fresh-uuid" "t1" "X" "user" "hi" []).2 = "fresh-uuid" ∧
    lookupConv (add_message [] "fresh-uuid" "t1" "X" "user" "hi" []).1 "X" =
      none ∧
    lookupConv (add_message [] "fresh-uuid" "t1" "X" "user" "hi" []).1
        "fresh-uuid" =
      some ⟨"fresh-uuid", "t1", [⟨"user", "hi", "t1", []⟩]⟩ := by
  have hknown := (C9_add_message_upsert [("A", ⟨"A", "t0", []⟩)] "fresh-uuid"
    "t1" "A" "user" "hi" []).1 ⟨"A", "t0", []⟩ rfl
  have hunknown := (C9_add_message_upsert [] "fresh-uuid" "t1" "X" "user"
    "hi" []).2 rfl
  exact ⟨hknown.1, hknown.2, hunknown.1, hunknown.2.1 (by decide),
    hunknown.2.2 rfl⟩

end FindHouse
